import Mathlib

/-!
Shallow embedding of the repobee-tauri frontend (`src/App.tsx` and
`src/components/SettingsMenu.tsx`): the progress-stream coalescer attached to
the `generate_lms_files` channel, the settings load/replace/save handlers, and
the profile-save handler, together with theorems about them.

Strings are modelled by Lean `String`; the JavaScript string primitives used by
the source (`split`, `join`, `slice`, `trimStart`, `startsWith`, the
`trim() === ""` blank test) are modelled character-wise on `String.data`.
-/

/-! ### Models of the JavaScript string primitives used by the source -/

/-- Model of JavaScript `s.slice(n)`: drop the first `n` characters. -/
def jsSlice (s : String) (n : Nat) : String := String.mk (s.data.drop n)

/-- Model of JavaScript `s.trimStart()`: drop leading whitespace. -/
def jsTrimStart (s : String) : String := String.mk (s.data.dropWhile Char.isWhitespace)

/-- Model of JavaScript `s.startsWith(p)`. -/
def jsStartsWith (s p : String) : Bool := p.data.isPrefixOf s.data

/-- Model of the JavaScript test `s.trim() === ""`: every character is whitespace. -/
def isBlank (s : String) : Bool := s.data.all Char.isWhitespace

/-- Character-level model of JavaScript `s.split("\n")`. -/
def splitChars : List Char → List (List Char)
  | [] => [[]]
  | c :: cs =>
    if c = '\n' then [] :: splitChars cs
    else
      match splitChars cs with
      | [] => [[c]]
      | h :: t => (c :: h) :: t

/-- Character-level model of JavaScript `lines.join("\n")`. -/
def joinChars : List (List Char) → List Char
  | [] => []
  | [l] => l
  | l :: l' :: ls => l ++ '\n' :: joinChars (l' :: ls)

/-- JavaScript `prev.split("\n")` on a Lean string. -/
def splitNL (s : String) : List String := (splitChars s.data).map String.mk

/-- JavaScript `lines.join("\n")` on Lean strings. -/
def joinNL (ls : List String) : String := String.mk (joinChars (ls.map String.data))

/-! ### The progress stream coalescer (App.tsx, `generateLmsFiles`) -/

/-- Wire marker for transient progress messages: `PROGRESS_PREFIX` at App.tsx line 468. -/
def progressWire : String := "[PROGRESS]"

/-- Display rendering marker: `PROGRESS_DISPLAY_PREFIX` at App.tsx line 469. -/
def progressDisplay : String := "(progress) "

/-- Function `appendOutput` at App.tsx lines 425-427:
`setOutputText((prev) => prev + text + "\n")`. -/
def appendOutput (prev text : String) : String := prev ++ text ++ "\n"

/-- Model of the loop at App.tsx lines 477-479:
`while (lines.length && lines[lines.length - 1].trim() === "") lines.pop();`
(remove trailing whitespace-only lines). -/
def dropTrailingBlanks : List String → List String
  | [] => []
  | l :: ls =>
    match dropTrailingBlanks ls with
    | [] => if isBlank l then [] else [l]
    | l' :: ls' => l :: l' :: ls'

/-- Display line built for a transient message, App.tsx lines 473-474:
the wire marker is sliced off, leading whitespace trimmed, and the display
marker prepended. -/
def displayLineOf (message : String) : String :=
  progressDisplay ++ jsTrimStart (jsSlice message progressWire.length)

/-- Core of the `setOutputText` updater at App.tsx lines 476-487, acting on the
line list: after removing trailing blank lines, replace the last line if it
starts with the display marker (`lines[lines.length - 1] = displayLine`),
otherwise push the new line. -/
def progressLines (displayLine : String) (lines0 : List String) : List String :=
  let lines := dropTrailingBlanks lines0
  match lines.getLast? with
  | some last =>
    if jsStartsWith last progressDisplay then lines.dropLast ++ [displayLine]
    else lines ++ [displayLine]
  | none => [displayLine]

/-- Transient branch of `progressChannel.onmessage`, App.tsx lines 475-489:
split the transcript on newlines, update the line list, join with newlines. -/
def progressOnMessage (message prev : String) : String :=
  joinNL (progressLines (displayLineOf message) (splitNL prev))

/-- Handler `progressChannel.onmessage` at App.tsx lines 471-494: transient
messages (those starting with the wire marker) go through the replace-or-append
updater; all other messages are appended with `appendOutput`. -/
def channelOnMessage (message prev : String) : String :=
  if jsStartsWith message progressWire then progressOnMessage message prev
  else appendOutput prev message

/-- Deliver a sequence of channel messages to the transcript in arrival order. -/
def processMessages (msgs : List String) (prev : String) : String :=
  msgs.foldl (fun acc m => channelOnMessage m acc) prev

/-- Terminal-result handling at App.tsx lines 521-525: `appendOutput("")`, then
`appendOutput(result.message)`, then `appendOutput(result.details)` when the
detail text is present. -/
def appendTerminal (prev message : String) (details : Option String) : String :=
  let t1 := appendOutput prev ""
  let t2 := appendOutput t1 message
  match details with
  | some d => appendOutput t2 d
  | none => t2

/-! ### The specified two-state reducer (spec section 4.4) -/

/-- Reducer state of spec section 4.4. -/
inductive CoalesceState
  | noTransientActive
  | transientActive
deriving DecidableEq

/-- Spec-side transcript: an ordered list of display lines plus the reducer state. -/
structure SpecTranscript where
  lines : List String
  state : CoalesceState
deriving DecidableEq

/-- One transition of the reducer specified in section 4.4: a non-transient
message appends a permanent line and resets the state; a transient message
appends a new transient line in `noTransientActive`, and in `transientActive`
replaces the most recently appended line (trailing blank lines preceding it
are discarded before the check). -/
def specStep (t : SpecTranscript) (m : String) : SpecTranscript :=
  if jsStartsWith m progressWire then
    let rendered := displayLineOf m
    match t.state with
    | .noTransientActive => ⟨t.lines ++ [rendered], .transientActive⟩
    | .transientActive => ⟨(dropTrailingBlanks t.lines).dropLast ++ [rendered], .transientActive⟩
  else ⟨t.lines ++ [m], .noTransientActive⟩

/-- Run the specified reducer over a message sequence from the empty transcript. -/
def specRun (msgs : List String) : SpecTranscript :=
  msgs.foldl specStep ⟨[], .noTransientActive⟩

/-! ### The settings data model

The stored `GuiSettings` document (serde-flattened on the Rust side) as the
frontend consumes it: every field may be absent in a loaded source, so each is
an `Option`. Field names follow the external interface (App.tsx lines 129-183,
259-308 and `test_settings.sh`). -/

structure GuiSettings where
  lms_type : Option String
  lms_base_url : Option String
  lms_custom_url : Option String
  lms_url_option : Option String
  lms_access_token : Option String
  lms_course_id : Option String
  lms_course_name : Option String
  lms_yaml_file : Option String
  lms_info_folder : Option String
  lms_csv_file : Option String
  lms_xlsx_file : Option String
  lms_member_option : Option String
  lms_include_group : Option Bool
  lms_include_member : Option Bool
  lms_include_initials : Option Bool
  lms_full_groups : Option Bool
  lms_output_csv : Option Bool
  lms_output_xlsx : Option Bool
  lms_output_yaml : Option Bool
  git_base_url : Option String
  git_access_token : Option String
  git_user : Option String
  git_student_repos_group : Option String
  git_template_group : Option String
  yaml_file : Option String
  target_folder : Option String
  assignments : Option String
  directory_layout : Option String
  log_info : Option Bool
  log_debug : Option Bool
  log_warning : Option Bool
  log_error : Option Bool
  active_tab : Option String
  config_locked : Option Bool
  options_locked : Option Bool
  window_width : Option Int
  window_height : Option Int
  window_x : Option Int
  window_y : Option Int
deriving DecidableEq

/-- The `LmsFormState` record of App.tsx lines 26-46. The TypeScript union
types (`"Canvas" | "Moodle"` etc.) are unchecked casts at runtime, so they are
modelled as plain strings. -/
structure LmsFormState where
  lmsType : String
  baseUrl : String
  customUrl : String
  urlOption : String
  accessToken : String
  courseId : String
  courseName : String
  yamlFile : String
  infoFileFolder : String
  csvFile : String
  xlsxFile : String
  memberOption : String
  includeGroup : Bool
  includeMember : Bool
  includeInitials : Bool
  fullGroups : Bool
  csv : Bool
  xlsx : Bool
  yaml : Bool
deriving DecidableEq

/-- The `logLevels` sub-record of `FormState` (App.tsx lines 18-23). -/
structure LogLevels where
  info : Bool
  debug : Bool
  warning : Bool
  error : Bool
deriving DecidableEq

/-- The `FormState` record of App.tsx lines 8-24. -/
structure FormState where
  accessToken : String
  user : String
  baseUrl : String
  studentReposGroup : String
  templateGroup : String
  yamlFile : String
  targetFolder : String
  assignments : String
  directoryLayout : String
  logLevels : LogLevels
deriving DecidableEq

/-- Model of the JavaScript defaulting idiom `stored || dflt` on string fields:
an absent value and the empty string are both falsy and fall back to the
default. -/
def strOr (v : Option String) (dflt : String) : String :=
  match v with
  | none => dflt
  | some s => if s = "" then dflt else s

/-- Model of the JavaScript defaulting idiom `stored ?? dflt` on boolean
fields: only an absent value falls back to the default (`false` is kept). -/
def boolOr (v : Option Bool) (dflt : Bool) : Bool := v.getD dflt

/-- The LMS form record built field-by-field from a stored document, before the
URL-option coercion: App.tsx lines 132-152 (`loadSettingsFromDisk`) and the
textually identical record at lines 207-227 (`handleSettingsLoaded`). -/
def rawLmsFormOf (s : GuiSettings) : LmsFormState where
  lmsType := strOr s.lms_type "Canvas"
  baseUrl := strOr s.lms_base_url "https://canvas.tue.nl"
  customUrl := strOr s.lms_custom_url ""
  urlOption := strOr s.lms_url_option "TUE"
  accessToken := strOr s.lms_access_token ""
  courseId := strOr s.lms_course_id ""
  courseName := strOr s.lms_course_name ""
  yamlFile := strOr s.lms_yaml_file "students.yaml"
  infoFileFolder := strOr s.lms_info_folder ""
  csvFile := strOr s.lms_csv_file "student-info.csv"
  xlsxFile := strOr s.lms_xlsx_file "student-info.xlsx"
  memberOption := strOr s.lms_member_option "(email, gitid)"
  includeGroup := boolOr s.lms_include_group true
  includeMember := boolOr s.lms_include_member true
  includeInitials := boolOr s.lms_include_initials false
  fullGroups := boolOr s.lms_full_groups true
  csv := boolOr s.lms_output_csv false
  xlsx := boolOr s.lms_output_xlsx false
  yaml := boolOr s.lms_output_yaml true

/-- The URL-option coercion at App.tsx lines 154-156:
`if (loadedLmsForm.lmsType !== "Canvas") loadedLmsForm.urlOption = "CUSTOM";`. -/
def coerceLms (f : LmsFormState) : LmsFormState :=
  if f.lmsType ≠ "Canvas" then { f with urlOption := "CUSTOM" } else f

/-- The LMS form produced by `loadSettingsFromDisk` (App.tsx lines 132-158):
the raw record followed by the URL-option coercion. -/
def loadedLmsFormOf (s : GuiSettings) : LmsFormState := coerceLms (rawLmsFormOf s)

/-- The repo form built from a stored document: App.tsx lines 161-177
(`loadSettingsFromDisk`) and the textually identical record at lines 230-246
(`handleSettingsLoaded`). -/
def repoFormOf (s : GuiSettings) : FormState where
  accessToken := strOr s.git_access_token ""
  user := strOr s.git_user ""
  baseUrl := strOr s.git_base_url "https://gitlab.tue.nl"
  studentReposGroup := strOr s.git_student_repos_group ""
  templateGroup := strOr s.git_template_group ""
  yamlFile := strOr s.yaml_file "students.yaml"
  targetFolder := strOr s.target_folder ""
  assignments := strOr s.assignments ""
  directoryLayout := strOr s.directory_layout "flat"
  logLevels :=
    { info := boolOr s.log_info true
      debug := boolOr s.log_debug false
      warning := boolOr s.log_warning true
      error := boolOr s.log_error true }

/-- The tab selection `settings.active_tab === "repo" ? "repo" : "lms"`
(App.tsx lines 180 and 249). -/
def activeTabOf (s : GuiSettings) : String :=
  if s.active_tab = some "repo" then "repo" else "lms"

/-- The part of the in-memory state populated from a stored document by a load
or a profile/import application: both sub-forms, the active tab and the two
lock flags. -/
structure LoadedState where
  lmsForm : LmsFormState
  form : FormState
  activeTab : String
  configLocked : Bool
  optionsLocked : Bool
deriving DecidableEq

/-- The in-memory state `loadSettingsFromDisk` produces from a successfully
parsed stored document (App.tsx lines 129-183). -/
def loadSettingsApply (s : GuiSettings) : LoadedState where
  lmsForm := loadedLmsFormOf s
  form := repoFormOf s
  activeTab := activeTabOf s
  configLocked := boolOr s.config_locked true
  optionsLocked := boolOr s.options_locked true

/-! ### The App component state -/

/-- The `useState` cells of the `App` component that the settings and progress
actions touch (App.tsx lines 51-101). -/
structure AppState where
  activeTab : String
  configLocked : Bool
  optionsLocked : Bool
  outputText : String
  tokenDialogOpen : Bool
  tokenDialogValue : String
  lmsTokenDialogOpen : Bool
  lmsTokenDialogValue : String
  showTokenInstructions : Bool
  tokenInstructions : String
  settingsMenuOpen : Bool
  currentGuiSettings : Option GuiSettings
  lmsForm : LmsFormState
  form : FormState
deriving DecidableEq

/-- The initial `lmsForm` value (App.tsx lines 64-84). -/
def initialLmsForm : LmsFormState where
  lmsType := "Canvas"
  baseUrl := "https://canvas.tue.nl"
  customUrl := ""
  urlOption := "TUE"
  accessToken := ""
  courseId := ""
  courseName := ""
  yamlFile := "students.yaml"
  infoFileFolder := ""
  csvFile := "student-info.csv"
  xlsxFile := "student-info.xlsx"
  memberOption := "(email, gitid)"
  includeGroup := true
  includeMember := true
  includeInitials := false
  fullGroups := true
  csv := false
  xlsx := false
  yaml := true

/-- The initial `form` value (App.tsx lines 85-101). -/
def initialForm : FormState where
  accessToken := ""
  user := ""
  baseUrl := "https://gitlab.tue.nl"
  studentReposGroup := ""
  templateGroup := ""
  yamlFile := ""
  targetFolder := ""
  assignments := ""
  directoryLayout := "flat"
  logLevels := { info := true, debug := false, warning := true, error := true }

/-- The initial component state (App.tsx lines 52-101). -/
def initialAppState : AppState where
  activeTab := "lms"
  configLocked := true
  optionsLocked := true
  outputText := ""
  tokenDialogOpen := false
  tokenDialogValue := ""
  lmsTokenDialogOpen := false
  lmsTokenDialogValue := ""
  showTokenInstructions := false
  tokenInstructions := ""
  settingsMenuOpen := false
  currentGuiSettings := none
  lmsForm := initialLmsForm
  form := initialForm

/-- The `catch` branch of `loadSettingsFromDisk` (App.tsx lines 192-199): three
diagnostic lines are appended to the transcript and nothing else changes. -/
def loadCatch (error : String) (st : AppState) : AppState :=
  { st with
    outputText :=
      appendOutput
        (appendOutput
          (appendOutput st.outputText "⚠ Cannot load settings file, using default settings")
          ("  Error: " ++ error))
        "  Click 'Save Settings' to create a valid settings file" }

/-- Function `loadSettingsFromDisk` (App.tsx lines 111-200), with the outcomes
of the `settings_exist` and `load_settings` backend calls passed in explicitly
(a rejected call is an `Except.error` carrying the stringified error). The
structural check at lines 120-122 cannot fail in the typed model. -/
def loadSettingsFromDisk (existsRes : Except String Bool)
    (loadRes : Except String GuiSettings) (st : AppState) : AppState :=
  match existsRes with
  | .error e => loadCatch e st
  | .ok fileExists =>
    match loadRes with
    | .error e => loadCatch e st
    | .ok settings =>
      let st :=
        { st with
          currentGuiSettings := some settings
          lmsForm := loadedLmsFormOf settings
          form := repoFormOf settings
          activeTab := activeTabOf settings
          configLocked := boolOr settings.config_locked true
          optionsLocked := boolOr settings.options_locked true }
      if fileExists then
        { st with outputText := appendOutput st.outputText "✓ Settings loaded from file" }
      else
        { st with
          outputText :=
            appendOutput
              (appendOutput st.outputText "⚠ Settings file not found, using defaults")
              "  Click 'Save Settings' to create a settings file" }

/-- Function `handleSettingsLoaded` (App.tsx lines 202-253): applying a loaded
profile, imported document or reset result replaces both sub-forms, the active
tab and the lock flags wholly from the given document (no URL-option coercion
is performed at this site). -/
def handleSettingsLoaded (settings : GuiSettings) (st : AppState) : AppState :=
  { st with
    currentGuiSettings := some settings
    lmsForm := rawLmsFormOf settings
    form := repoFormOf settings
    activeTab := activeTabOf settings
    configLocked := boolOr settings.config_locked true
    optionsLocked := boolOr settings.options_locked true }

/-- The settings object handed to the `save_settings` backend call: all fields
are present. -/
structure SavedSettings where
  lms_type : String
  lms_base_url : String
  lms_custom_url : String
  lms_url_option : String
  lms_access_token : String
  lms_course_id : String
  lms_course_name : String
  lms_yaml_file : String
  lms_info_folder : String
  lms_csv_file : String
  lms_xlsx_file : String
  lms_member_option : String
  lms_include_group : Bool
  lms_include_member : Bool
  lms_include_initials : Bool
  lms_full_groups : Bool
  lms_output_csv : Bool
  lms_output_xlsx : Bool
  lms_output_yaml : Bool
  git_base_url : String
  git_access_token : String
  git_user : String
  git_student_repos_group : String
  git_template_group : String
  yaml_file : String
  target_folder : String
  assignments : String
  directory_layout : String
  log_info : Bool
  log_debug : Bool
  log_warning : Bool
  log_error : Bool
  active_tab : String
  config_locked : Bool
  options_locked : Bool
  window_width : Int
  window_height : Int
  window_x : Int
  window_y : Int
deriving DecidableEq

/-- The `settings` object literal built by `saveSettingsToDisk` (App.tsx lines
259-308) from the current form and chrome state; the four window-geometry
fields are the literal constants of lines 304-307. -/
def saveSettingsPayload (lmsForm : LmsFormState) (form : FormState)
    (activeTab : String) (configLocked optionsLocked : Bool) : SavedSettings where
  lms_type := lmsForm.lmsType
  lms_base_url := lmsForm.baseUrl
  lms_custom_url := lmsForm.customUrl
  lms_url_option := lmsForm.urlOption
  lms_access_token := lmsForm.accessToken
  lms_course_id := lmsForm.courseId
  lms_course_name := lmsForm.courseName
  lms_yaml_file := lmsForm.yamlFile
  lms_info_folder := lmsForm.infoFileFolder
  lms_csv_file := lmsForm.csvFile
  lms_xlsx_file := lmsForm.xlsxFile
  lms_member_option := lmsForm.memberOption
  lms_include_group := lmsForm.includeGroup
  lms_include_member := lmsForm.includeMember
  lms_include_initials := lmsForm.includeInitials
  lms_full_groups := lmsForm.fullGroups
  lms_output_csv := lmsForm.csv
  lms_output_xlsx := lmsForm.xlsx
  lms_output_yaml := lmsForm.yaml
  git_base_url := form.baseUrl
  git_access_token := form.accessToken
  git_user := form.user
  git_student_repos_group := form.studentReposGroup
  git_template_group := form.templateGroup
  yaml_file := form.yamlFile
  target_folder := form.targetFolder
  assignments := form.assignments
  directory_layout := form.directoryLayout
  log_info := form.logLevels.info
  log_debug := form.logLevels.debug
  log_warning := form.logLevels.warning
  log_error := form.logLevels.error
  active_tab := activeTab
  config_locked := configLocked
  options_locked := optionsLocked
  window_width := 0
  window_height := 0
  window_x := 0
  window_y := 0

/-! ### Per-field apparatus for the defaulting claim -/

/-- One constructor per field of the stored document. -/
inductive StoredField
  | lms_type | lms_base_url | lms_custom_url | lms_url_option
  | lms_access_token | lms_course_id | lms_course_name | lms_yaml_file
  | lms_info_folder | lms_csv_file | lms_xlsx_file | lms_member_option
  | lms_include_group | lms_include_member | lms_include_initials
  | lms_full_groups | lms_output_csv | lms_output_xlsx | lms_output_yaml
  | git_base_url | git_access_token | git_user
  | git_student_repos_group | git_template_group
  | yaml_file | target_folder | assignments | directory_layout
  | log_info | log_debug | log_warning | log_error
  | active_tab | config_locked | options_locked
  | window_width | window_height | window_x | window_y
deriving DecidableEq

/-- Remove one field from a stored document. -/
def eraseField (fld : StoredField) (s : GuiSettings) : GuiSettings :=
  match fld with
  | .lms_type => { s with lms_type := none }
  | .lms_base_url => { s with lms_base_url := none }
  | .lms_custom_url => { s with lms_custom_url := none }
  | .lms_url_option => { s with lms_url_option := none }
  | .lms_access_token => { s with lms_access_token := none }
  | .lms_course_id => { s with lms_course_id := none }
  | .lms_course_name => { s with lms_course_name := none }
  | .lms_yaml_file => { s with lms_yaml_file := none }
  | .lms_info_folder => { s with lms_info_folder := none }
  | .lms_csv_file => { s with lms_csv_file := none }
  | .lms_xlsx_file => { s with lms_xlsx_file := none }
  | .lms_member_option => { s with lms_member_option := none }
  | .lms_include_group => { s with lms_include_group := none }
  | .lms_include_member => { s with lms_include_member := none }
  | .lms_include_initials => { s with lms_include_initials := none }
  | .lms_full_groups => { s with lms_full_groups := none }
  | .lms_output_csv => { s with lms_output_csv := none }
  | .lms_output_xlsx => { s with lms_output_xlsx := none }
  | .lms_output_yaml => { s with lms_output_yaml := none }
  | .git_base_url => { s with git_base_url := none }
  | .git_access_token => { s with git_access_token := none }
  | .git_user => { s with git_user := none }
  | .git_student_repos_group => { s with git_student_repos_group := none }
  | .git_template_group => { s with git_template_group := none }
  | .yaml_file => { s with yaml_file := none }
  | .target_folder => { s with target_folder := none }
  | .assignments => { s with assignments := none }
  | .directory_layout => { s with directory_layout := none }
  | .log_info => { s with log_info := none }
  | .log_debug => { s with log_debug := none }
  | .log_warning => { s with log_warning := none }
  | .log_error => { s with log_error := none }
  | .active_tab => { s with active_tab := none }
  | .config_locked => { s with config_locked := none }
  | .options_locked => { s with options_locked := none }
  | .window_width => { s with window_width := none }
  | .window_height => { s with window_height := none }
  | .window_x => { s with window_x := none }
  | .window_y => { s with window_y := none }

/-- Overwrite the in-memory slot fed by the given stored field with that
field's documented default value (the right-hand sides of the `||` and `??`
defaults in App.tsx lines 129-183). The window-geometry fields feed no
in-memory slot, so they leave the state unchanged. -/
def applyFieldDefault (fld : StoredField) (st : LoadedState) : LoadedState :=
  match fld with
  | .lms_type => { st with lmsForm := { st.lmsForm with lmsType := "Canvas" } }
  | .lms_base_url => { st with lmsForm := { st.lmsForm with baseUrl := "https://canvas.tue.nl" } }
  | .lms_custom_url => { st with lmsForm := { st.lmsForm with customUrl := "" } }
  | .lms_url_option => { st with lmsForm := { st.lmsForm with urlOption := "TUE" } }
  | .lms_access_token => { st with lmsForm := { st.lmsForm with accessToken := "" } }
  | .lms_course_id => { st with lmsForm := { st.lmsForm with courseId := "" } }
  | .lms_course_name => { st with lmsForm := { st.lmsForm with courseName := "" } }
  | .lms_yaml_file => { st with lmsForm := { st.lmsForm with yamlFile := "students.yaml" } }
  | .lms_info_folder => { st with lmsForm := { st.lmsForm with infoFileFolder := "" } }
  | .lms_csv_file => { st with lmsForm := { st.lmsForm with csvFile := "student-info.csv" } }
  | .lms_xlsx_file => { st with lmsForm := { st.lmsForm with xlsxFile := "student-info.xlsx" } }
  | .lms_member_option => { st with lmsForm := { st.lmsForm with memberOption := "(email, gitid)" } }
  | .lms_include_group => { st with lmsForm := { st.lmsForm with includeGroup := true } }
  | .lms_include_member => { st with lmsForm := { st.lmsForm with includeMember := true } }
  | .lms_include_initials => { st with lmsForm := { st.lmsForm with includeInitials := false } }
  | .lms_full_groups => { st with lmsForm := { st.lmsForm with fullGroups := true } }
  | .lms_output_csv => { st with lmsForm := { st.lmsForm with csv := false } }
  | .lms_output_xlsx => { st with lmsForm := { st.lmsForm with xlsx := false } }
  | .lms_output_yaml => { st with lmsForm := { st.lmsForm with yaml := true } }
  | .git_base_url => { st with form := { st.form with baseUrl := "https://gitlab.tue.nl" } }
  | .git_access_token => { st with form := { st.form with accessToken := "" } }
  | .git_user => { st with form := { st.form with user := "" } }
  | .git_student_repos_group => { st with form := { st.form with studentReposGroup := "" } }
  | .git_template_group => { st with form := { st.form with templateGroup := "" } }
  | .yaml_file => { st with form := { st.form with yamlFile := "students.yaml" } }
  | .target_folder => { st with form := { st.form with targetFolder := "" } }
  | .assignments => { st with form := { st.form with assignments := "" } }
  | .directory_layout => { st with form := { st.form with directoryLayout := "flat" } }
  | .log_info => { st with form := { st.form with logLevels := { st.form.logLevels with info := true } } }
  | .log_debug => { st with form := { st.form with logLevels := { st.form.logLevels with debug := false } } }
  | .log_warning => { st with form := { st.form with logLevels := { st.form.logLevels with warning := true } } }
  | .log_error => { st with form := { st.form with logLevels := { st.form.logLevels with error := true } } }
  | .active_tab => { st with activeTab := "lms" }
  | .config_locked => { st with configLocked := true }
  | .options_locked => { st with optionsLocked := true }
  | .window_width => st
  | .window_height => st
  | .window_x => st
  | .window_y => st

/-- A fully populated stored document (values as in `test_settings.sh`), with a
non-Canvas LMS type and the `TUE` URL option, used as concrete input in
counterexamples and witnesses. -/
def sampleStored : GuiSettings where
  lms_type := some "Moodle"
  lms_base_url := some "https://canvas.test.edu"
  lms_custom_url := some "https://moodle.test.edu"
  lms_url_option := some "TUE"
  lms_access_token := some "test_token_123"
  lms_course_id := some "12345"
  lms_course_name := some "Test Course"
  lms_yaml_file := some "test_students.yaml"
  lms_info_folder := some "/tmp/test"
  lms_csv_file := some "test.csv"
  lms_xlsx_file := some "test.xlsx"
  lms_member_option := some "email"
  lms_include_group := some true
  lms_include_member := some false
  lms_include_initials := some true
  lms_full_groups := some false
  lms_output_csv := some true
  lms_output_xlsx := some false
  lms_output_yaml := some true
  git_base_url := some "https://gitlab.test.com"
  git_access_token := some "git_test_token"
  git_user := some "testuser"
  git_student_repos_group := some "test-org"
  git_template_group := some "templates"
  yaml_file := some "custom_students.yaml"
  target_folder := some "/tmp/repos"
  assignments := some "lab1,lab2,lab3"
  directory_layout := some "by-team"
  log_info := some false
  log_debug := some true
  log_warning := some false
  log_error := some true
  active_tab := some "repo"
  config_locked := some false
  options_locked := some false
  window_width := some 1024
  window_height := some 768
  window_x := some 100
  window_y := some 100

/-! ### Profile store and the profile-save frontend handler -/

/-- Errors of the Profile Store operations (spec section 7). -/
inductive ProfileError
  | invalidName
  | notFound
deriving DecidableEq

/-- Modelled from the spec: the backend Profile Store (spec section 4.2) is not
under `src/`; it is the set of named profiles plus the active-profile
reference. -/
structure ProfileStore where
  profiles : List (String × GuiSettings)
  active : Option String
deriving DecidableEq

/-- The names in the store, in stored order (spec `list()`). -/
def listProfiles (st : ProfileStore) : List String := st.profiles.map (fun p => p.1)

/-- Modelled from the spec: the backend `save_profile` command is not under
`src/`; per spec section 4.2, `save(name, doc)` fails with `InvalidName` if
`name` is empty or whitespace-only after trimming; otherwise it inserts or
overwrites the entry and does not change the active reference. -/
def saveProfile (name : String) (doc : GuiSettings) (st : ProfileStore) :
    Except ProfileError ProfileStore :=
  if isBlank name then .error .invalidName
  else
    .ok { st with
      profiles :=
        if st.profiles.any (fun p => p.1 = name) then
          st.profiles.map (fun p => if p.1 = name then (name, doc) else p)
        else
          st.profiles ++ [(name, doc)] }

/-- Run a profile save against a store, keeping the prior store when the
operation fails. -/
def applySaveProfile (name : String) (doc : GuiSettings) (st : ProfileStore) : ProfileStore :=
  match saveProfile name doc st with
  | .ok st' => st'
  | .error _ => st

/-- Observable effects of the profile-save frontend handler. -/
inductive FrontendEffect
  | invokeSaveProfile (name : String) (settings : GuiSettings)
  | message (text : String)
  | clearNewProfileName
  | successFlash
  | reloadProfiles
deriving DecidableEq

/-- Function `handleSaveAsProfile` (SettingsMenu.tsx lines 88-102) as its
ordered effect trace, with the outcome of the `save_profile` backend call
passed in explicitly: a name that is empty after trimming
(`!newProfileName.trim()`) short-circuits into an error message with no
backend invocation. -/
def handleSaveAsProfile (newProfileName : String) (currentSettings : GuiSettings)
    (outcome : Except String Unit) : List FrontendEffect :=
  if isBlank newProfileName then [.message "✗ Please enter a profile name"]
  else
    .invokeSaveProfile newProfileName currentSettings ::
      match outcome with
      | .ok _ =>
        [.successFlash, .message ("✓ Saved profile: " ++ newProfileName),
         .clearNewProfileName, .reloadProfiles]
      | .error e => [.message ("✗ Failed to save profile: " ++ e)]

/-! ### Helper lemmas about the split/join models -/

theorem strData_append (a b : String) : (a ++ b).data = a.data ++ b.data := rfl

theorem strMk_data (s : String) : String.mk s.data = s := rfl

theorem splitChars_ne_nil (cs : List Char) : splitChars cs ≠ [] := by
  induction cs with
  | nil => simp [splitChars]
  | cons c cs ih =>
    simp only [splitChars]
    split
    · simp
    · split
      · simp
      · simp

theorem newline_not_mem_splitChars (cs : List Char) :
    ∀ l ∈ splitChars cs, '\n' ∉ l := by
  induction cs with
  | nil => intro l hl; simp [splitChars] at hl; simp [hl]
  | cons c cs ih =>
    intro l hl
    simp only [splitChars] at hl
    by_cases hc : c = '\n'
    · rw [if_pos hc] at hl
      rcases List.mem_cons.1 hl with h | h
      · simp [h]
      · exact ih l h
    · rw [if_neg hc] at hl
      rcases hsp : splitChars cs with _ | ⟨h0, t0⟩
      · exact absurd hsp (splitChars_ne_nil cs)
      · rw [hsp] at hl
        rcases List.mem_cons.1 hl with h | h
        · subst h
          intro hmem
          rcases List.mem_cons.1 hmem with h | h
          · exact hc h.symm
          · exact ih h0 (by rw [hsp]; exact List.mem_cons_self _ _) h
        · exact ih l (by rw [hsp]; exact List.mem_cons_of_mem _ h)

theorem splitChars_append_newline (a b : List Char) :
    splitChars (a ++ '\n' :: b) = splitChars a ++ splitChars b := by
  induction a with
  | nil => simp [splitChars]
  | cons c a ih =>
    simp only [List.cons_append, splitChars, List.append_eq]
    by_cases hc : c = '\n'
    · rw [if_pos hc, if_pos hc, ih]
      simp
    · rw [if_neg hc, if_neg hc, ih]
      rcases hsp : splitChars a with _ | ⟨h0, t0⟩
      · exact absurd hsp (splitChars_ne_nil a)
      · simp

theorem splitChars_of_not_mem {l : List Char} (h : '\n' ∉ l) : splitChars l = [l] := by
  induction l with
  | nil => simp [splitChars]
  | cons c cs ih =>
    have hc : c ≠ '\n' := fun hc => h (hc ▸ List.mem_cons_self _ _)
    have hcs : '\n' ∉ cs := fun hm => h (List.mem_cons_of_mem _ hm)
    simp only [splitChars, if_neg hc, ih hcs]

theorem splitChars_joinChars (L : List (List Char)) (hne : L ≠ [])
    (h : ∀ l ∈ L, '\n' ∉ l) : splitChars (joinChars L) = L := by
  induction L with
  | nil => exact absurd rfl hne
  | cons l L ih =>
    cases L with
    | nil =>
      simp only [joinChars]
      exact splitChars_of_not_mem (h l (List.mem_cons_self _ _))
    | cons l' L' =>
      have hj : joinChars (l :: l' :: L') = l ++ '\n' :: joinChars (l' :: L') := rfl
      rw [hj, splitChars_append_newline,
        splitChars_of_not_mem (h l (List.mem_cons_self _ _)),
        ih (by simp) (fun x hx => h x (List.mem_cons_of_mem _ hx))]
      rfl

theorem map_strMk_data (L : List String) :
    L.map (fun l => String.mk l.data) = L := by
  induction L with
  | nil => rfl
  | cons a L ih => simp only [List.map_cons, ih, strMk_data]

theorem splitNL_joinNL (L : List String) (hne : L ≠ [])
    (h : ∀ l ∈ L, '\n' ∉ l.data) : splitNL (joinNL L) = L := by
  have hdata : ∀ l ∈ L.map String.data, '\n' ∉ l := by
    intro l hl
    rcases List.mem_map.1 hl with ⟨x, hx, rfl⟩
    exact h x hx
  have hne' : L.map String.data ≠ [] := by
    intro hcon
    exact hne (List.map_eq_nil_iff.1 hcon)
  simp only [splitNL, joinNL]
  rw [splitChars_joinChars _ hne' hdata, List.map_map]
  exact map_strMk_data L

theorem newline_not_mem_splitNL (s : String) :
    ∀ l ∈ splitNL s, '\n' ∉ l.data := by
  intro l hl
  rcases List.mem_map.1 hl with ⟨x, hx, rfl⟩
  exact newline_not_mem_splitChars s.data x hx

theorem dropTrailingBlanks_decomp (ls : List String) :
    ∃ t, ls = dropTrailingBlanks ls ++ t ∧ ∀ l ∈ t, isBlank l = true := by
  induction ls with
  | nil => exact ⟨[], rfl, by simp⟩
  | cons l ls ih =>
    rcases ih with ⟨t, ht, hbl⟩
    simp only [dropTrailingBlanks]
    split
    · next h0 =>
      have hls : ls = t := by rw [h0] at ht; simpa using ht
      split
      · next hb =>
        refine ⟨l :: ls, by simp, ?_⟩
        intro x hx
        rcases List.mem_cons.1 hx with hx | hx
        · exact hx ▸ hb
        · exact hbl x (hls ▸ hx)
      · exact ⟨ls, by simp, fun x hx => hbl x (hls ▸ hx)⟩
    · next l' ls' h1 =>
      refine ⟨t, ?_, hbl⟩
      rw [← h1]
      simpa using ht

theorem mem_of_mem_dropTrailingBlanks {ls : List String} {x : String}
    (hx : x ∈ dropTrailingBlanks ls) : x ∈ ls := by
  rcases dropTrailingBlanks_decomp ls with ⟨t, ht, -⟩
  rw [ht]
  exact List.mem_append_left _ hx

theorem getq_append_left {α : Type} (xs ys : List α) (i : Nat) (h : i < xs.length) :
    (xs ++ ys)[i]? = xs[i]? := by
  rw [List.getElem?_append, if_pos h]

theorem getq_dropLast_append {α : Type} (xs : List α) (d : α) (i : Nat)
    (h : i + 1 < xs.length) : (xs.dropLast ++ [d])[i]? = xs[i]? := by
  have hlen : i < xs.dropLast.length := by
    rw [List.length_dropLast]; omega
  rw [getq_append_left _ _ _ hlen, List.dropLast_eq_take, List.getElem?_take,
    if_pos (by omega)]

/-- Equation used to commute record-field updates past the URL-option coercion:
the coercion only rewrites the `urlOption` component, as a function of the
`lmsType` component. -/
theorem coerceLms_eq (f : LmsFormState) :
    coerceLms f
      = { f with urlOption := if f.lmsType ≠ "Canvas" then "CUSTOM" else f.urlOption } := by
  by_cases h : f.lmsType = "Canvas"
  · have h' : ¬(f.lmsType ≠ "Canvas") := not_not_intro h
    rw [coerceLms, if_neg h', if_neg h']
  · rw [coerceLms, if_pos h, if_pos h]

theorem mem_of_mem_dropLast {α : Type} {l : List α} {x : α}
    (h : x ∈ l.dropLast) : x ∈ l := by
  rw [List.dropLast_eq_take] at h
  exact List.take_subset _ _ h

theorem splitChars_three_lines (x y z : List Char)
    (hx : '\n' ∉ x) (hy : '\n' ∉ y) (hz : '\n' ∉ z) :
    splitChars (x ++ '\n' :: (y ++ '\n' :: (z ++ '\n' :: []))) = [x, y, z, []] := by
  rw [splitChars_append_newline, splitChars_append_newline, splitChars_append_newline,
    splitChars_of_not_mem hx, splitChars_of_not_mem hy, splitChars_of_not_mem hz]
  rfl

theorem strMk_nil : String.mk [] = "" := rfl

/-- Transcript shape after three `appendOutput` calls on the empty transcript. -/
theorem splitNL_three_appends (a b c : String)
    (ha : '\n' ∉ a.data) (hb : '\n' ∉ b.data) (hc : '\n' ∉ c.data) :
    splitNL (appendOutput (appendOutput (appendOutput "" a) b) c)
      = [a, b, c, ""] := by
  have hdata : (appendOutput (appendOutput (appendOutput "" a) b) c).data
      = a.data ++ '\n' :: (b.data ++ '\n' :: (c.data ++ '\n' :: [])) := by
    simp [appendOutput, strData_append, List.append_assoc]
  show (splitChars (appendOutput (appendOutput (appendOutput "" a) b) c).data).map String.mk = _
  rw [hdata, splitChars_three_lines a.data b.data c.data ha hb hc]
  simp [strMk_data, strMk_nil]

/-! ### The claims -/

/-- Claim C1, evaluated on the code: delivering the four messages of the
coalescing example to the channel from the empty transcript and then appending
the terminal result without detail does NOT produce the four claimed lines.
The non-transient milestone is merged into the pending transient line (the
transient branch joins without a trailing newline while `appendOutput`
concatenates directly) and is then overwritten by the next transient update,
so the final transcript holds only two lines. -/
theorem c1_coalescing_example_eval :
    appendTerminal (processMessages ["[PROGRESS] step 1", "[PROGRESS] step 2",
        "starting phase two", "[PROGRESS] step 3"] "") "done" none
      = "(progress) step 3\ndone\n"
    ∧ splitNL (appendTerminal (processMessages ["[PROGRESS] step 1", "[PROGRESS] step 2",
        "starting phase two", "[PROGRESS] step 3"] "") "done" none)
      = ["(progress) step 3", "done", ""]
    ∧ "starting phase two" ∉
        splitNL (appendTerminal (processMessages ["[PROGRESS] step 1", "[PROGRESS] step 2",
          "starting phase two", "[PROGRESS] step 3"] "") "done" none) := by
  decide

/-- Claim C2, evaluated on the code: a non-transient message delivered while a
transient line is pending does not get its own transcript line; it is merged
into the transient line, and a later transient update then discards it
entirely. -/
theorem c2_milestone_line_eval :
    processMessages ["[PROGRESS] a", "milestone"] "" = "(progress) amilestone\n"
    ∧ "milestone" ∉ splitNL (processMessages ["[PROGRESS] a", "milestone"] "")
    ∧ processMessages ["[PROGRESS] a", "milestone", "[PROGRESS] b"] "" = "(progress) b"
    ∧ "milestone" ∉ splitNL (processMessages ["[PROGRESS] a", "milestone", "[PROGRESS] b"] "") := by
  decide

/-- Claim C3, evaluated on the code: the implemented coalescer and the
specified two-state reducer disagree already on the two-message sequence
`["[PROGRESS] a", "milestone"]` processed from the empty transcript: the
reducer keeps the milestone as its own permanent line, the implementation
merges it into the transient line. -/
theorem c3_reducer_equivalence_eval :
    (specRun ["[PROGRESS] a", "milestone"]).lines = ["(progress) a", "milestone"]
    ∧ splitNL (processMessages ["[PROGRESS] a", "milestone"] "") = ["(progress) amilestone", ""]
    ∧ dropTrailingBlanks (splitNL (processMessages ["[PROGRESS] a", "milestone"] ""))
        ≠ (specRun ["[PROGRESS] a", "milestone"]).lines := by
  decide

/-- Claim C6: applying a loaded profile or imported document through
`handleSettingsLoaded` produces LMS-form, repo-form, active-tab and lock
states that are a function of the loaded document alone; no field of the prior
in-memory state leaks into them. -/
theorem c6_replacement_depends_only_on_document (s : GuiSettings) (st1 st2 : AppState) :
    (handleSettingsLoaded s st1).lmsForm = (handleSettingsLoaded s st2).lmsForm
    ∧ (handleSettingsLoaded s st1).form = (handleSettingsLoaded s st2).form
    ∧ (handleSettingsLoaded s st1).activeTab = (handleSettingsLoaded s st2).activeTab
    ∧ (handleSettingsLoaded s st1).configLocked = (handleSettingsLoaded s st2).configLocked
    ∧ (handleSettingsLoaded s st1).optionsLocked = (handleSettingsLoaded s st2).optionsLocked :=
  ⟨rfl, rfl, rfl, rfl, rfl⟩

/-- Claim C9: whatever the current form and chrome state, the settings object
`saveSettingsToDisk` hands to the `save_settings` backend call has all four
window-geometry fields equal to zero. -/
theorem c9_window_geometry_zeroed (lmsForm : LmsFormState) (form : FormState)
    (activeTab : String) (configLocked optionsLocked : Bool) :
    (saveSettingsPayload lmsForm form activeTab configLocked optionsLocked).window_width = 0
    ∧ (saveSettingsPayload lmsForm form activeTab configLocked optionsLocked).window_height = 0
    ∧ (saveSettingsPayload lmsForm form activeTab configLocked optionsLocked).window_x = 0
    ∧ (saveSettingsPayload lmsForm form activeTab configLocked optionsLocked).window_y = 0 :=
  ⟨rfl, rfl, rfl, rfl⟩

/-- Claim C4: when the stream ends, the terminal summary message is appended as
a new permanent line in every case — all lines of the prior transcript,
including a pending transient line, are preserved unchanged — and the optional
detail text is appended as a further permanent line exactly when it is
present. -/
theorem c4_terminal_always_appends (prev message : String) (details : Option String)
    (hm : '\n' ∉ message.data)
    (hd : ∀ d, details = some d → '\n' ∉ d.data) :
    splitNL (appendTerminal prev message details)
      = splitNL prev ++ [message] ++ details.toList ++ [""] := by
  cases details with
  | none =>
    have hdata : (appendTerminal prev message none).data
        = prev.data ++ '\n' :: (message.data ++ '\n' :: []) := by
      simp [appendTerminal, appendOutput, strData_append, List.append_assoc]
    show (splitChars (appendTerminal prev message none).data).map String.mk = _
    rw [hdata, splitChars_append_newline, splitChars_append_newline,
      splitChars_of_not_mem hm]
    simp [strMk_data, strMk_nil, splitChars, splitNL]
  | some d =>
    have hdnl : '\n' ∉ d.data := hd d rfl
    have hdata : (appendTerminal prev message (some d)).data
        = prev.data ++ '\n' :: (message.data ++ '\n' :: (d.data ++ '\n' :: [])) := by
      simp [appendTerminal, appendOutput, strData_append, List.append_assoc]
    show (splitChars (appendTerminal prev message (some d)).data).map String.mk = _
    rw [hdata, splitChars_append_newline, splitChars_append_newline,
      splitChars_append_newline, splitChars_of_not_mem hm, splitChars_of_not_mem hdnl]
    simp [strMk_data, strMk_nil, splitChars, splitNL]

/-- Witness for C4 at a concrete input: the terminal result lands after a
pending transient line (a transcript with no trailing newline) without
touching it, and the detail text gets its own line. -/
theorem c4_terminal_always_appends_witness :
    splitNL (appendTerminal "(progress) step 3" "done" (some "5 files"))
      = splitNL "(progress) step 3" ++ ["done"] ++ (some "5 files").toList ++ [""] :=
  c4_terminal_always_appends "(progress) step 3" "done" (some "5 files")
    (by decide) (fun d hd => by cases hd; decide)

/-- Claim C8: when the `load_settings` backend call is rejected at startup,
`loadSettingsFromDisk` completes normally, both sub-forms and all chrome state
keep their all-defaults initial values, and the failure surfaces only as three
diagnostic lines appended to the transcript. -/
theorem c8_load_failure_keeps_defaults (fe : Bool) (e : String) (he : '\n' ∉ e.data) :
    (loadSettingsFromDisk (.ok fe) (.error e) initialAppState).lmsForm = initialLmsForm
    ∧ (loadSettingsFromDisk (.ok fe) (.error e) initialAppState).form = initialForm
    ∧ (loadSettingsFromDisk (.ok fe) (.error e) initialAppState).activeTab = "lms"
    ∧ (loadSettingsFromDisk (.ok fe) (.error e) initialAppState).configLocked = true
    ∧ (loadSettingsFromDisk (.ok fe) (.error e) initialAppState).optionsLocked = true
    ∧ (loadSettingsFromDisk (.ok fe) (.error e) initialAppState).currentGuiSettings = none
    ∧ splitNL (loadSettingsFromDisk (.ok fe) (.error e) initialAppState).outputText
        = ["⚠ Cannot load settings file, using default settings", "  Error: " ++ e,
           "  Click 'Save Settings' to create a valid settings file", ""] := by
  refine ⟨rfl, rfl, rfl, rfl, rfl, rfl, ?_⟩
  have herr : '\n' ∉ ("  Error: " ++ e).data := by
    rw [strData_append]
    intro hmem
    rcases List.mem_append.1 hmem with h | h
    · exact (by decide : '\n' ∉ ("  Error: " : String).data) h
    · exact he h
  exact splitNL_three_appends _ _ _ (by decide) herr (by decide)

/-- Witness for C8 at a concrete rejection message. -/
theorem c8_load_failure_keeps_defaults_witness :
    (loadSettingsFromDisk (.ok false) (.error "expected value at line 1 column 1")
        initialAppState).lmsForm = initialLmsForm
    ∧ splitNL (loadSettingsFromDisk (.ok false) (.error "expected value at line 1 column 1")
        initialAppState).outputText
      = ["⚠ Cannot load settings file, using default settings",
         "  Error: " ++ "expected value at line 1 column 1",
         "  Click 'Save Settings' to create a valid settings file", ""] :=
  ⟨(c8_load_failure_keeps_defaults false "expected value at line 1 column 1" (by decide)).1,
   (c8_load_failure_keeps_defaults false "expected value at line 1 column 1"
      (by decide)).2.2.2.2.2.2⟩

/-- Claim C7: a profile name that is empty or whitespace-only after trimming is
rejected: the spec-modelled backend `save` fails with `InvalidName` and leaves
the profile list untouched, and the frontend `handleSaveAsProfile` issues no
`save_profile` invocation and reports an error message instead. -/
theorem c7_blank_profile_name_rejected (name : String) (h : isBlank name = true) :
    (∀ doc st, saveProfile name doc st = Except.error ProfileError.invalidName)
    ∧ (∀ doc st, listProfiles (applySaveProfile name doc st) = listProfiles st)
    ∧ (∀ cur outcome, handleSaveAsProfile name cur outcome
        = [FrontendEffect.message "✗ Please enter a profile name"])
    ∧ ∀ cur outcome n doc,
        FrontendEffect.invokeSaveProfile n doc ∉ handleSaveAsProfile name cur outcome := by
  refine ⟨fun doc st => by simp [saveProfile, h],
    fun doc st => by simp [applySaveProfile, saveProfile, h],
    fun cur outcome => by simp [handleSaveAsProfile, h],
    fun cur outcome n doc hmem => ?_⟩
  simp [handleSaveAsProfile, h] at hmem

/-- Witness for C7 at the concrete whitespace-only name of the spec's
empty-name-rejection property. -/
theorem c7_blank_profile_name_rejected_witness :
    saveProfile "   " sampleStored ⟨[], none⟩ = Except.error ProfileError.invalidName
    ∧ handleSaveAsProfile "   " sampleStored (Except.ok ())
        = [FrontendEffect.message "✗ Please enter a profile name"] :=
  ⟨(c7_blank_profile_name_rejected "   " (by decide)).1 sampleStored ⟨[], none⟩,
   (c7_blank_profile_name_rejected "   " (by decide)).2.2.1 sampleStored (Except.ok ())⟩

/-- Counterexample to claim C5: in `loadSettingsFromDisk` the resulting
`urlOption` depends on the stored `lms_type` (it is coerced to `CUSTOM`
whenever the loaded LMS type is not `Canvas`), so loading a document with only
`lms_type` absent changes the `urlOption` slot as well as the `lmsType` slot,
and two fully-populated documents differing only in `lms_type` load to
different `urlOption` values. -/
theorem c5_field_independence_counterexample :
    eraseField StoredField.lms_type sampleStored = { sampleStored with lms_type := none }
    ∧ (loadSettingsApply sampleStored).lmsForm.urlOption = "CUSTOM"
    ∧ (loadSettingsApply (eraseField StoredField.lms_type sampleStored)).lmsForm.urlOption
        = "TUE"
    ∧ (loadSettingsApply (eraseField StoredField.lms_type sampleStored)).lmsForm.urlOption
        ≠ (loadSettingsApply sampleStored).lmsForm.urlOption
    ∧ ({ sampleStored with lms_type := some "Canvas" } : GuiSettings).lms_url_option
        = sampleStored.lms_url_option
    ∧ (loadSettingsApply { sampleStored with lms_type := some "Canvas" }).lmsForm.urlOption
        ≠ (loadSettingsApply sampleStored).lmsForm.urlOption := by
  decide

/-- Claim C5 as amended: loading a stored document with exactly one field
absent yields the same in-memory state as loading the fully-populated
document, except that the slot fed by the absent field takes its documented
default value — unless the absent field is `lms_type` or `lms_url_option`,
the two fields coupled by the URL-option coercion: with `lms_type` absent the
loaded LMS type defaults to `Canvas` and `urlOption` becomes the defaulted
stored URL option without coercion, and with `lms_url_option` absent
`urlOption` becomes the default `TUE` and is then coerced to `CUSTOM` when the
loaded LMS type is not `Canvas`. All other slots are unaffected, each
depending only on its own stored field; the resulting state is total by
construction. -/
theorem c5_defaulting_amended (s : GuiSettings) :
    (∀ fld : StoredField, fld ≠ StoredField.lms_type → fld ≠ StoredField.lms_url_option →
        loadSettingsApply (eraseField fld s) = applyFieldDefault fld (loadSettingsApply s))
    ∧ loadSettingsApply (eraseField StoredField.lms_type s)
        = { loadSettingsApply s with
            lmsForm := { (loadSettingsApply s).lmsForm with
                         lmsType := "Canvas"
                         urlOption := strOr s.lms_url_option "TUE" } }
    ∧ loadSettingsApply (eraseField StoredField.lms_url_option s)
        = { loadSettingsApply s with
            lmsForm := { (loadSettingsApply s).lmsForm with
                         urlOption :=
                           if strOr s.lms_type "Canvas" ≠ "Canvas" then "CUSTOM"
                           else "TUE" } } := by
  refine ⟨?_, ?_, ?_⟩
  · intro fld h1 h2
    cases fld <;>
      first
        | exact absurd rfl h1
        | exact absurd rfl h2
        | simp [loadSettingsApply, loadedLmsFormOf, coerceLms_eq, rawLmsFormOf, repoFormOf,
            activeTabOf, applyFieldDefault, eraseField, strOr, boolOr]
  · simp [loadSettingsApply, loadedLmsFormOf, coerceLms_eq, rawLmsFormOf, repoFormOf,
      activeTabOf, eraseField, strOr, boolOr]
  · simp [loadSettingsApply, loadedLmsFormOf, coerceLms_eq, rawLmsFormOf, repoFormOf,
      activeTabOf, eraseField, strOr, boolOr]

/-- Witness for the amended C5 at a concrete field and document: erasing the
course id from the fully-populated sample yields exactly the full load with
the course-id slot defaulted. -/
theorem c5_defaulting_amended_witness :
    loadSettingsApply (eraseField StoredField.lms_course_id sampleStored)
      = applyFieldDefault StoredField.lms_course_id (loadSettingsApply sampleStored) :=
  (c5_defaulting_amended sampleStored).1 StoredField.lms_course_id (by decide) (by decide)

/-- Claim C10: processing a transient message is frame-preserving on the
transcript: it removes only trailing whitespace-only lines, then either
replaces the single last remaining line or appends one new line, and every
line strictly before the last non-whitespace line keeps its content and
position. -/
theorem c10_transient_frame (m prev : String)
    (hm : jsStartsWith m progressWire = true) (hnl : '\n' ∉ m.data) :
    (∃ t, splitNL prev = dropTrailingBlanks (splitNL prev) ++ t
        ∧ ∀ l ∈ t, isBlank l = true)
    ∧ (splitNL (channelOnMessage m prev)
          = (dropTrailingBlanks (splitNL prev)).dropLast ++ [displayLineOf m]
       ∨ splitNL (channelOnMessage m prev)
          = dropTrailingBlanks (splitNL prev) ++ [displayLineOf m])
    ∧ ∀ i : Nat, i + 1 < (dropTrailingBlanks (splitNL prev)).length →
        (splitNL (channelOnMessage m prev))[i]? = (splitNL prev)[i]? := by
  obtain ⟨t, ht, hbl⟩ := dropTrailingBlanks_decomp (splitNL prev)
  have hchan : channelOnMessage m prev = progressOnMessage m prev := by
    rw [channelOnMessage, if_pos hm]
  have hdisp : '\n' ∉ (displayLineOf m).data := by
    intro hmem
    rw [displayLineOf, strData_append] at hmem
    rcases List.mem_append.1 hmem with h | h
    · exact (by decide : '\n' ∉ progressDisplay.data) h
    · have h' : '\n' ∈ (m.data.drop progressWire.length).dropWhile Char.isWhitespace := h
      exact hnl (List.drop_subset _ _ ((List.dropWhile_sublist _).subset h'))
  have hkeptnl : ∀ l ∈ dropTrailingBlanks (splitNL prev), '\n' ∉ l.data :=
    fun l hl => newline_not_mem_splitNL prev l (mem_of_mem_dropTrailingBlanks hl)
  rcases hgl : (dropTrailingBlanks (splitNL prev)).getLast? with _ | last
  · have hnil : dropTrailingBlanks (splitNL prev) = [] := List.getLast?_eq_none_iff.1 hgl
    have hlines : progressLines (displayLineOf m) (splitNL prev) = [displayLineOf m] := by
      simp only [progressLines]
      rw [hgl]
    have hres : splitNL (channelOnMessage m prev) = [displayLineOf m] := by
      rw [hchan, progressOnMessage, hlines]
      refine splitNL_joinNL _ (by simp) ?_
      intro l hl
      obtain rfl := List.mem_singleton.1 hl
      exact hdisp
    refine ⟨⟨t, ht, hbl⟩, Or.inr (by rw [hres, hnil]; rfl), ?_⟩
    intro i hi
    rw [hnil] at hi
    simp at hi
  · by_cases hlast : jsStartsWith last progressDisplay
    · have hlines : progressLines (displayLineOf m) (splitNL prev)
          = (dropTrailingBlanks (splitNL prev)).dropLast ++ [displayLineOf m] := by
        simp only [progressLines]
        rw [hgl]
        simp [hlast]
      have hres : splitNL (channelOnMessage m prev)
          = (dropTrailingBlanks (splitNL prev)).dropLast ++ [displayLineOf m] := by
        rw [hchan, progressOnMessage, hlines]
        refine splitNL_joinNL _ (by simp) ?_
        intro l hl
        rcases List.mem_append.1 hl with h | h
        · exact hkeptnl l (mem_of_mem_dropLast h)
        · obtain rfl := List.mem_singleton.1 h
          exact hdisp
      refine ⟨⟨t, ht, hbl⟩, Or.inl hres, ?_⟩
      intro i hi
      rw [hres, getq_dropLast_append _ _ _ hi]
      conv_rhs => rw [ht]
      rw [getq_append_left _ _ _
        (show i < (dropTrailingBlanks (splitNL prev)).length by omega)]
    · have hlines : progressLines (displayLineOf m) (splitNL prev)
          = dropTrailingBlanks (splitNL prev) ++ [displayLineOf m] := by
        simp only [progressLines]
        rw [hgl]
        simp [hlast]
      have hres : splitNL (channelOnMessage m prev)
          = dropTrailingBlanks (splitNL prev) ++ [displayLineOf m] := by
        rw [hchan, progressOnMessage, hlines]
        refine splitNL_joinNL _ (by simp) ?_
        intro l hl
        rcases List.mem_append.1 hl with h | h
        · exact hkeptnl l h
        · obtain rfl := List.mem_singleton.1 h
          exact hdisp
      refine ⟨⟨t, ht, hbl⟩, Or.inr hres, ?_⟩
      intro i hi
      rw [hres, getq_append_left _ _ _
        (show i < (dropTrailingBlanks (splitNL prev)).length by omega)]
      conv_rhs => rw [ht]
      rw [getq_append_left _ _ _
        (show i < (dropTrailingBlanks (splitNL prev)).length by omega)]

/-- Witness for C10 at a concrete input: a transient update on a transcript
holding one permanent line, a pending transient line and a trailing blank
line replaces only the transient line. -/
theorem c10_transient_frame_witness :
    (∃ t, splitNL "setup done\n(progress) 40%\n"
        = dropTrailingBlanks (splitNL "setup done\n(progress) 40%\n") ++ t
        ∧ ∀ l ∈ t, isBlank l = true)
    ∧ (splitNL (channelOnMessage "[PROGRESS] 60%" "setup done\n(progress) 40%\n")
          = (dropTrailingBlanks (splitNL "setup done\n(progress) 40%\n")).dropLast
              ++ [displayLineOf "[PROGRESS] 60%"]
       ∨ splitNL (channelOnMessage "[PROGRESS] 60%" "setup done\n(progress) 40%\n")
          = dropTrailingBlanks (splitNL "setup done\n(progress) 40%\n")
              ++ [displayLineOf "[PROGRESS] 60%"])
    ∧ ∀ i : Nat,
        i + 1 < (dropTrailingBlanks (splitNL "setup done\n(progress) 40%\n")).length →
        (splitNL (channelOnMessage "[PROGRESS] 60%" "setup done\n(progress) 40%\n"))[i]?
          = (splitNL "setup done\n(progress) 40%\n")[i]? :=
  c10_transient_frame "[PROGRESS] 60%" "setup done\n(progress) 40%\n"
    (by decide) (by decide)
